import Mathlib

/-!
Shallow embedding of `space_invaders.py` (a pygame Space Invaders clone)
and verification of the frozen claims about it.

Conventions of the embedding:
* pygame `Rect` coordinates are machine integers; rectangles are stored by
  their top-left corner, widths and heights are the fixed surface sizes
  from the source (player 50 x 40, bullet 4 x 12, enemy 40 x 30).
* The source stores the horizontal fleet speed as a Python float; every
  value it ever takes is an exact multiple of 1/5 (1.2, 0.2 increments and
  their negations), so speeds are represented here in fifths of a pixel as
  integers (`dx5 = 6` means 1.2 px/tick).  Adding such a speed to an
  integer rect coordinate truncates toward zero, as assigning a float to a
  pygame Rect field does.
* Python exceptions are modelled with `Except PyError`.
* `random.choice` is modelled by an externally supplied natural number
  used as an index modulo the list length.
-/

namespace SpaceInvaders

/-- Playfield width (config constant `WIDTH = 800`). -/
def WIDTH : Int := 800

/-- Playfield height (config constant `HEIGHT = 600`). -/
def HEIGHT : Int := 600

/-- Player horizontal speed per tick (`PLAYER_SPEED = 6`). -/
def PLAYER_SPEED : Int := 6

/-- Bullet vertical speed per tick (`BULLET_SPEED = 9`). -/
def BULLET_SPEED : Int := 9

/-- Initial fleet horizontal speed, in fifths of a pixel (`ENEMY_SPEED_X = 1.2`). -/
def ENEMY_SPEED_X5 : Int := 6

/-- Vertical drop distance when the formation bounces (`ENEMY_DROP = 22`). -/
def ENEMY_DROP : Int := 22

/-- Base enemy shooting cooldown (`ENEMY_COOLDOWN = 32`). -/
def ENEMY_COOLDOWN : Int := 32

/-- Starting number of player lives (`LIVES = 3`). -/
def LIVES : Int := 3

/-- Exceptions the Python runtime raises on the paths we model. -/
inductive PyError where
  | unboundLocal
  | attributeError
deriving DecidableEq

/-- Adding a speed of `dx5 / 5` pixels to an integer rect coordinate:
pygame truncates the resulting float toward zero when storing it back
into the integer `rect.x` field. -/
def addSpeed (x dx5 : Int) : Int := (5 * x + dx5).tdiv 5

/-- Keyboard state snapshot used by the first (shadowed) `Player.update`:
whether a left key (LEFT or a) and a right key (RIGHT or d) is held. -/
structure KeysState where
  left : Bool
  right : Bool
deriving DecidableEq

/-- A `Bullet` sprite (lines 61-74): 4 x 12 surface, stored by top-left. -/
structure Bullet where
  x : Int
  y : Int
  vy : Int
  from_player : Bool
deriving DecidableEq

/-- `Bullet.__init__` receives the rect center `(cx, cy)`; top-left is
`(cx - 2, cy - 6)` for the 4 x 12 surface. -/
def mkBullet (cx cy vy : Int) (fp : Bool) : Bullet :=
  { x := cx - 2, y := cy - 6, vy := vy, from_player := fp }

/-- `Bullet.update` (lines 71-74): move by `vy`, kill the sprite when the
rect leaves the screen (`bottom < 0 or top > HEIGHT`). `none` means killed. -/
def Bullet.step (b : Bullet) : Option Bullet :=
  let b2 : Bullet := { b with y := b.y + b.vy }
  if b2.y + 12 < 0 ∨ b2.y > HEIGHT then none else some b2

/-- An `Enemy` sprite (lines 77-91): 40 x 30 surface at top-left `(x, y)`. -/
structure Enemy where
  x : Int
  y : Int
  tier : Nat
deriving DecidableEq

def Enemy.left (e : Enemy) : Int := e.x

def Enemy.right (e : Enemy) : Int := e.x + 40

def Enemy.bottom (e : Enemy) : Int := e.y + 30

def Enemy.centerx (e : Enemy) : Int := e.x + 20

/-- The `Player` class the program actually instantiates: the second
definition (lines 277-286) shadows the first one, so instances have the
rect (50 x 40, constructed from `midbottom`), `cooldown` and `lives`,
and no `update` or `shoot` method of their own. -/
structure Player where
  x : Int
  y : Int
  cooldown : Int
  lives : Int
deriving DecidableEq

/-- `Player.__init__` gets `midbottom = (mx, my)`; top-left is
`(mx - 25, my - 40)` for the 50 x 40 surface. -/
def mkPlayer (mx my : Int) : Player :=
  { x := mx - 25, y := my - 40, cooldown := 0, lives := LIVES }

def Player.top (p : Player) : Int := p.y

/-- The shadowing `Player` class defines no `update`, so calls fall back to
`pygame.sprite.Sprite.update`, which accepts any arguments and does
nothing. -/
def Player.update (p : Player) (_keys : KeysState) : Player := p

/-- The first, shadowed `Player` class (lines 29-58).  It is dead code at
runtime but the claims reference it, so it is embedded as well. -/
structure PlayerFirst where
  x : Int
  y : Int
  cooldown : Int
  lives : Int
deriving DecidableEq

/-- First `Player.update` (lines 41-50): horizontal move clamped to
`[16, WIDTH - 16 - 50]`, cooldown decremented while positive. -/
def PlayerFirst.update (p : PlayerFirst) (keys : KeysState) : PlayerFirst :=
  let dx := (if keys.left then -PLAYER_SPEED else 0) +
            (if keys.right then PLAYER_SPEED else 0)
  { p with x := max 16 (min (WIDTH - 16 - 50) (p.x + dx)),
           cooldown := if p.cooldown > 0 then p.cooldown - 1 else p.cooldown }

/-- First `Player.shoot` (lines 54-58).  When `cooldown == 0` the body runs
`bullet = bullet(self.rect.centerx, self.rect.top)`: the assignment makes
`bullet` a local name, so reading it on the right-hand side raises
`UnboundLocalError` before `self.cooldown = 10` is ever reached.  When
`cooldown > 0` the body is skipped and nothing is produced or mutated. -/
def PlayerFirst.shoot (p : PlayerFirst) : Except PyError (PlayerFirst × Option Bullet) :=
  if p.cooldown = 0 then .error .unboundLocal else .ok (p, none)

/-- Fleet controller state (lines 94-99).  The enemy group itself lives in
the game state; the fleet carries the speed and the pending-drop flag. -/
structure Fleet where
  dx5 : Int
  move_down : Bool
deriving DecidableEq

/-- `min((e.rect.left for e in group), default=0)` (line 102). -/
def minLeft (es : List Enemy) : Int := (es.map Enemy.left).min?.getD 0

/-- `max((e.rect.right for e in group), default=WIDTH)` (line 103). -/
def maxRight (es : List Enemy) : Int := (es.map Enemy.right).max?.getD WIDTH

/-- `Fleet.update` (lines 101-112): if the bounds touch the margins the
speed is negated and `move_down` set; every enemy then moves by the (new)
speed and, when `move_down` holds, drops by `ENEMY_DROP`; finally
`move_down` is cleared. -/
def Fleet.update (f : Fleet) (es : List Enemy) : Fleet × List Enemy :=
  let d := if minLeft es ≤ 10 ∨ maxRight es ≥ WIDTH - 10
           then (-f.dx5, true) else (f.dx5, f.move_down)
  let es2 := es.map (fun e =>
    { e with x := addSpeed e.x d.1, y := if d.2 then e.y + ENEMY_DROP else e.y })
  ({ dx5 := d.1, move_down := false }, es2)

/-- The list of enemies the inner comprehension of
`Game.get_bottom_row_enemies` (line 202) builds for an enemy `e`:
`[o for o in self.enemies if o.rect.centerx == e.rect.centerx and o.rect.y > e.rect.y - 5]`.
Note that `o` ranges over all enemies, including `e` itself. -/
def below_of (es : List Enemy) (e : Enemy) : List Enemy :=
  es.filter (fun o => o.centerx == e.centerx && decide (o.y > e.y - 5))

/-- Keys of a Python dict built by repeated `setdefault`, in order of first
occurrence (line 206-208). -/
def firstKeys : List Int → List Int
  | [] => []
  | k :: ks => k :: (firstKeys ks).filter (fun k2 => k2 != k)

/-- The bucket of enemies sharing the exact horizontal center `k`
(lines 206-208). -/
def columnOf (es : List Enemy) (k : Int) : List Enemy :=
  es.filter (fun e => e.centerx == k)

/-- `max(xs, key=lambda spr: spr.rect.y)` (line 210): Python `max` keeps the
first element on ties, replacing only on a strictly greater key. -/
def pymax_y : List Enemy → Option Enemy
  | [] => none
  | e :: rest => some (rest.foldl (fun best o => if o.y > best.y then o else best) e)

/-- `Game.get_bottom_row_enemies` (lines 198-211): first collect enemies
whose `below_of` list is empty; if none, bucket all enemies by exact
`centerx` (dict insertion order) and take the greatest-`y` enemy of each
bucket. -/
def get_bottom_row_enemies (es : List Enemy) : List Enemy :=
  let bottoms := es.filter (fun e => (below_of es e).length == 0)
  if bottoms.isEmpty then
    (firstKeys (es.map Enemy.centerx)).filterMap (fun k => pymax_y (columnOf es k))
  else bottoms

/-- Strict rectangle overlap, as `pygame.Rect.colliderect` computes it for
rects with positive sizes. -/
def collideRect (ax ay aw ah bx bb bw bh : Int) : Bool :=
  decide (ax < bx + bw) && decide (bx < ax + aw) &&
  decide (ay < bb + bh) && decide (bb < ay + ah)

/-- Enemy (40 x 30) versus bullet (4 x 12) overlap. -/
def enemyHitBy (e : Enemy) (b : Bullet) : Bool :=
  collideRect e.x e.y 40 30 b.x b.y 4 12

/-- Player (50 x 40) versus bullet (4 x 12) overlap. -/
def playerHitBy (p : Player) (b : Bullet) : Bool :=
  collideRect p.x p.y 50 40 b.x b.y 4 12

/-- `pygame.sprite.groupcollide(enemies, player_bullets, True, True)`
(line 214): iterate the enemies in group order; for each one collect and
remove every still-present bullet overlapping it; an enemy with a
non-empty collision list is removed and recorded with its bullets.
Returns (recorded hits, surviving enemies, surviving bullets). -/
def groupcollide :
    List Enemy → List Bullet → List (Enemy × List Bullet) × List Enemy × List Bullet
  | [], bs => ([], [], bs)
  | e :: es, bs =>
    let hit := bs.filter (fun b => enemyHitBy e b)
    if hit.isEmpty then
      let r := groupcollide es bs
      (r.1, e :: r.2.1, r.2.2)
    else
      let r := groupcollide es (bs.filter (fun b => !enemyHitBy e b))
      ((e, hit) :: r.1, r.2.1, r.2.2)

/-- The whole mutable state of `Game` that the claims touch.
`enemy_speed_x5` models the module-level global `ENEMY_SPEED_X`
reassigned by `spawn_wave` and `reset`. -/
structure GameState where
  player : Player
  player_bullets : List Bullet
  enemy_bullets : List Bullet
  enemies : List Enemy
  score : Int
  wave : Nat
  game_over : Bool
  enemy_speed_x5 : Int
  fleet : Fleet
  enemy_shoot_timer : Int
deriving DecidableEq

namespace Game

/-- `Game.collisions` (lines 213-226): player bullets versus enemies with
score bookkeeping, then enemy bullets versus the player with the life and
game-over bookkeeping, then the breach check over the surviving enemies. -/
def collisions (g : GameState) : GameState :=
  let r := groupcollide g.enemies g.player_bullets
  let score2 := r.1.foldl (fun s h => s + (50 + (h.1.tier : Int) * 25)) g.score
  let hitP := g.enemy_bullets.filter (fun b => playerHitBy g.player b)
  let ebs2 := g.enemy_bullets.filter (fun b => !playerHitBy g.player b)
  let lives2 := if hitP.isEmpty then g.player.lives else g.player.lives - 1
  let go1 := if !hitP.isEmpty && decide (lives2 ≤ 0) then true else g.game_over
  let go2 := if r.2.1.any (fun e => decide (e.bottom ≥ g.player.top)) then true else go1
  { g with enemies := r.2.1, player_bullets := r.2.2, enemy_bullets := ebs2,
           player := { g.player with lives := lives2 },
           score := score2, game_over := go2 }

/-- The 10 x 5 grid `Game.spawn_wave` builds (lines 144-154):
`start_x = (WIDTH - 9 * 56) // 2 = 148`, `start_y = 70`, row `r` gets tier
`rows - 1 - r`. -/
def waveGrid : List Enemy :=
  (List.range 5).flatMap (fun (r : Nat) => (List.range 10).map (fun (c : Nat) =>
    { x := 148 + (c : Int) * 56, y := 70 + (r : Int) * 40, tier := 4 - r }))

/-- `Game.spawn_wave` (lines 141-158): bump the wave counter, add the grid
to the enemy group, recompute the global speed `1.2 + 0.2 * (wave - 1)`
(here `6 + (wave - 1)` fifths) and build a fresh `Fleet` from it. -/
def spawn_wave (g : GameState) : GameState :=
  let wave2 := g.wave + 1
  let speed5 := 6 + ((wave2 : Int) - 1)
  { g with wave := wave2,
           enemies := g.enemies ++ waveGrid,
           enemy_speed_x5 := speed5,
           fleet := { dx5 := speed5, move_down := false } }

/-- `Game.reset` (lines 160-172): empty every group, recreate the player,
zero the score and wave, clear game-over, restore the global speed to 1.2
and spawn wave 1.  The enemy shoot timer is not touched. -/
def reset (g : GameState) : GameState :=
  spawn_wave { g with
    player_bullets := [], enemy_bullets := [], enemies := [],
    player := mkPlayer (WIDTH.tdiv 2) (HEIGHT - 30),
    score := 0, wave := 0, game_over := false, enemy_speed_x5 := 6 }

/-- `Game.enemy_shoot` (lines 188-196): nothing with no enemies; otherwise
decrement the timer and, at zero or below, fire from a uniformly chosen
bottom-row enemy and rearm the timer.  `rng` supplies the uniform choice
as an index modulo the candidate count. -/
def enemy_shoot (rng : Nat) (g : GameState) : GameState :=
  if g.enemies.length = 0 then g
  else
    let t := g.enemy_shoot_timer - 1
    if t ≤ 0 then
      let bottoms := get_bottom_row_enemies g.enemies
      let shooter := bottoms.getD (rng % bottoms.length) { x := 0, y := 0, tier := 0 }
      { g with
        enemy_bullets :=
          g.enemy_bullets ++ [mkBullet shooter.centerx shooter.bottom BULLET_SPEED false],
        enemy_shoot_timer := max 8 (ENEMY_COOLDOWN - (g.wave : Int) * 2) }
    else { g with enemy_shoot_timer := t }

/-- `self.all_sprites.update()` (line 231): the runtime player and the
enemies have no `update` of their own (no-ops via `Sprite.update`); every
bullet moves and off-screen bullets are killed. -/
def sprites_update (g : GameState) : GameState :=
  { g with player_bullets := g.player_bullets.filterMap Bullet.step,
           enemy_bullets := g.enemy_bullets.filterMap Bullet.step }

/-- `self.fleet.update()` (line 232) acting on the shared enemy group. -/
def fleet_update (g : GameState) : GameState :=
  let r := Fleet.update g.fleet g.enemies
  { g with fleet := r.1, enemies := r.2 }

/-- Lines 231-234 of `Game.update`: the phases a non-game-over tick runs
before the wave check. -/
def pre_spawn (rng : Nat) (g : GameState) : GameState :=
  collisions (enemy_shoot rng (fleet_update (sprites_update g)))

/-- `Game.update` (lines 228-237): do nothing once game over; otherwise run
the phases and spawn a new wave when the enemy group has emptied. -/
def update (rng : Nat) (g : GameState) : GameState :=
  if g.game_over then g
  else
    let g1 := pre_spawn rng g
    if g1.enemies.length = 0 then spawn_wave g1 else g1

end Game

/-- Keydown events `Game.handle_events` reacts to. -/
inductive Key where
  | space
  | enter
  | rkey
  | other
deriving DecidableEq

namespace Game

/-- The event loop of `Game.handle_events` (lines 178-186).  On SPACE while
not game over the code calls `self.player.shoot(...)`; the instantiated
(second) `Player` class has no `shoot` attribute, so this raises
`AttributeError`.  On RETURN or r while game over it restarts. -/
def handle_keydowns : List Key → GameState → Except PyError GameState
  | [], g => .ok g
  | k :: rest, g =>
    if k = Key.space ∧ g.game_over = false then .error .attributeError
    else if g.game_over = true ∧ (k = Key.enter ∨ k = Key.rkey) then
      handle_keydowns rest (reset g)
    else handle_keydowns rest g

/-- `Game.handle_events` (lines 174-186): `self.player.update(keys)` (a
no-op for the runtime `Player` class), then the event loop. -/
def handle_events (keys : KeysState) (ks : List Key) (g : GameState) :
    Except PyError GameState :=
  handle_keydowns ks { g with player := Player.update g.player keys }

/-- One iteration of `Game.run` (lines 262-274) restricted to state
mutation: `handle_events` then `update` (drawing does not touch the game
state). -/
def tick (keys : KeysState) (ks : List Key) (rng : Nat) (g : GameState) :
    Except PyError GameState :=
  (handle_events keys ks g).map (update rng)

/-- The state `Game.__init__` (lines 117-139) builds: fresh player at
`(WIDTH // 2, HEIGHT - 30)`, empty groups, zero score, wave spawned once,
shoot timer zero. -/
def initGame : GameState :=
  spawn_wave
    { player := mkPlayer (WIDTH.tdiv 2) (HEIGHT - 30),
      player_bullets := [], enemy_bullets := [], enemies := [],
      score := 0, wave := 0, game_over := false,
      enemy_speed_x5 := 6, fleet := { dx5 := 6, move_down := false },
      enemy_shoot_timer := 0 }

end Game

/-- The front-line candidate set as the claim for the Threat Selector
states it (spec wording, for comparison with the code): an enemy `E` is a
candidate when no other alive enemy shares approximately the same
horizontal center (within 5 units) and has a strictly greater `y`. -/
def specFrontline (es : List Enemy) : List Enemy :=
  es.filter (fun e =>
    decide (∀ o ∈ es, o ≠ e → (o.centerx - e.centerx).natAbs ≤ 5 → o.y ≤ e.y))

/-! ## Claim theorems -/

/-- Claim C1 (code_bug evidence): the spec promises that a shot with
`shoot_cooldown == 0` creates a projectile and resets the cooldown to 10,
but the code cannot perform a successful shot at all.  The first (shadowed)
`Player.shoot` raises `UnboundLocalError` on its first statement precisely
when `cooldown == 0`, never reaching the cooldown reset; and the `Player`
class the game instantiates has no `shoot` attribute, so the SPACE handler
raises `AttributeError` on a fresh game (whose player has cooldown 0). -/
theorem shoot_never_succeeds :
    PlayerFirst.shoot { x := 375, y := 530, cooldown := 0, lives := 3 } =
      .error PyError.unboundLocal ∧
    (∀ p : PlayerFirst, p.cooldown = 0 → PlayerFirst.shoot p = .error PyError.unboundLocal) ∧
    Game.handle_keydowns [Key.space] Game.initGame = .error PyError.attributeError := by
  refine ⟨rfl, ?_, rfl⟩
  intro p hp
  simp [PlayerFirst.shoot, hp]

/-- Claim C2: on a `Fleet.update` whose alive enemies touch either margin
(minimum left edge at most 10, or maximum right edge at least
`WIDTH - 10`), the horizontal speed is negated and every enemy drops by
`ENEMY_DROP` that same update; with no touch, no enemy's `y` changes; in
both cases the pending-drop flag ends the update cleared. -/
theorem fleet_bounce_and_drop (f : Fleet) (es : List Enemy)
    (_hne : es ≠ []) (hmd : f.move_down = false) :
    ((minLeft es ≤ 10 ∨ maxRight es ≥ WIDTH - 10) →
      (Fleet.update f es).1.dx5 = -f.dx5 ∧
      (Fleet.update f es).2.map Enemy.y = es.map (fun e => e.y + ENEMY_DROP)) ∧
    (¬(minLeft es ≤ 10 ∨ maxRight es ≥ WIDTH - 10) →
      (Fleet.update f es).1.dx5 = f.dx5 ∧
      (Fleet.update f es).2.map Enemy.y = es.map Enemy.y) ∧
    (Fleet.update f es).1.move_down = false := by
  refine ⟨fun h => ?_, fun h => ?_, ?_⟩
  · simp only [Fleet.update]
    rw [if_pos h]
    exact ⟨rfl, by rw [List.map_map]; simp [Function.comp]⟩
  · simp only [Fleet.update]
    rw [if_neg h]
    refine ⟨rfl, ?_⟩
    rw [List.map_map]
    simp [hmd, Function.comp]
  · simp only [Fleet.update]

/-- Witness for C2 at a concrete bouncing formation. -/
theorem fleet_bounce_and_drop_witness :
    ([({ x := 5, y := 100, tier := 0 } : Enemy)] ≠ []) ∧
    ({ dx5 := 6, move_down := false } : Fleet).move_down = false ∧
    (((minLeft [({ x := 5, y := 100, tier := 0 } : Enemy)] ≤ 10 ∨
        maxRight [({ x := 5, y := 100, tier := 0 } : Enemy)] ≥ WIDTH - 10) →
      (Fleet.update { dx5 := 6, move_down := false }
        [({ x := 5, y := 100, tier := 0 } : Enemy)]).1.dx5 = -(6 : Int) ∧
      (Fleet.update { dx5 := 6, move_down := false }
        [({ x := 5, y := 100, tier := 0 } : Enemy)]).2.map Enemy.y =
        [({ x := 5, y := 100, tier := 0 } : Enemy)].map (fun e => e.y + ENEMY_DROP)) ∧
    (¬(minLeft [({ x := 5, y := 100, tier := 0 } : Enemy)] ≤ 10 ∨
        maxRight [({ x := 5, y := 100, tier := 0 } : Enemy)] ≥ WIDTH - 10) →
      (Fleet.update { dx5 := 6, move_down := false }
        [({ x := 5, y := 100, tier := 0 } : Enemy)]).1.dx5 = (6 : Int) ∧
      (Fleet.update { dx5 := 6, move_down := false }
        [({ x := 5, y := 100, tier := 0 } : Enemy)]).2.map Enemy.y =
        [({ x := 5, y := 100, tier := 0 } : Enemy)].map Enemy.y) ∧
    (Fleet.update { dx5 := 6, move_down := false }
      [({ x := 5, y := 100, tier := 0 } : Enemy)]).1.move_down = false) :=
  ⟨by decide, rfl,
    fleet_bounce_and_drop { dx5 := 6, move_down := false }
      [{ x := 5, y := 100, tier := 0 }] (by decide) rfl⟩

/-- Every enemy is a member of its own `below_of` list: it shares its own
exact `centerx` and satisfies `e.y > e.y - 5`. -/
theorem below_of_self (es : List Enemy) (e : Enemy) (he : e ∈ es) :
    e ∈ below_of es e := by
  unfold below_of
  refine List.mem_filter.2 ⟨he, ?_⟩
  simp

/-- The first pass of `get_bottom_row_enemies` never yields a candidate. -/
theorem firstPass_empty (es : List Enemy) :
    es.filter (fun e => (below_of es e).length == 0) = [] := by
  rw [List.filter_eq_nil_iff]
  intro e he
  have hmem := below_of_self es e he
  have hne : below_of es e ≠ [] := List.ne_nil_of_mem hmem
  simp [List.length_eq_zero, hne]

/-- Python `max(xs, key=rect.y)` on a nonempty list returns an element of
the list with a maximal `y`. -/
theorem pymax_y_spec (l : List Enemy) (b : Enemy) (h : pymax_y l = some b) :
    b ∈ l ∧ ∀ o ∈ l, o.y ≤ b.y := by
  have step : ∀ (t : List Enemy) (a : Enemy),
      (t.foldl (fun best o => if o.y > best.y then o else best) a = a ∨
        t.foldl (fun best o => if o.y > best.y then o else best) a ∈ t) ∧
      a.y ≤ (t.foldl (fun best o => if o.y > best.y then o else best) a).y ∧
      ∀ o ∈ t, o.y ≤ (t.foldl (fun best o => if o.y > best.y then o else best) a).y := by
    intro t
    induction t with
    | nil => intro a; simp
    | cons o t ih =>
      intro a
      simp only [List.foldl_cons]
      rcases ih (if o.y > a.y then o else a) with ⟨hmem, hgea, hall⟩
      constructor
      · rcases hmem with heq | hin
        · rw [heq]
          by_cases hoy : o.y > a.y
          · right; rw [if_pos hoy]; exact List.mem_cons_self o t
          · left; rw [if_neg hoy]
        · right; exact List.mem_cons_of_mem o hin
      · refine ⟨?_, ?_⟩
        · refine le_trans ?_ hgea
          by_cases hoy : o.y > a.y
          · rw [if_pos hoy]; omega
          · rw [if_neg hoy]
        · intro o2 ho2
          rcases List.mem_cons.1 ho2 with rfl | hin
          · refine le_trans ?_ hgea
            by_cases hoy : o2.y > a.y
            · rw [if_pos hoy]
            · rw [if_neg hoy]; omega
          · exact hall o2 hin
  match l, h with
  | e :: rest, h =>
    have hb : rest.foldl (fun best o => if o.y > best.y then o else best) e = b := by
      simpa [pymax_y] using h
    rcases step rest e with ⟨hmem, hgea, hall⟩
    rw [hb] at hmem hgea hall
    constructor
    · rcases hmem with heq | hin
      · rw [heq]; exact List.mem_cons_self e rest
      · exact List.mem_cons_of_mem e hin
    · intro o ho
      rcases List.mem_cons.1 ho with rfl | hin
      · exact hgea
      · exact hall o hin

/-- `firstKeys` has exactly the members of its input. -/
theorem mem_firstKeys (k : Int) : ∀ l : List Int, k ∈ firstKeys l ↔ k ∈ l := by
  intro l
  induction l with
  | nil => simp [firstKeys]
  | cons a l ih =>
    by_cases hka : k = a
    · subst hka
      simp [firstKeys]
    · simp [firstKeys, List.mem_filter, hka, ih]

/-- Membership in a column bucket. -/
theorem mem_columnOf (es : List Enemy) (k : Int) (e : Enemy) :
    e ∈ columnOf es k ↔ e ∈ es ∧ e.centerx = k := by
  simp [columnOf, List.mem_filter]

/-- Claim C3 counterexample.  Take `A` at `(x, y) = (80, 50)` and `B` at
`(83, 90)` (horizontal centers 100 and 103, three units apart, `B` lower).
Per the claim the tolerance pass yields exactly `[B]` (it is non-empty, so
no fallback), yet the code returns both enemies: its first pass compares
exact centers with a `y` tolerance and counts each enemy as below itself,
so it always falls through to the exact-center buckets. -/
theorem bottom_row_claim_counterexample :
    specFrontline
        [{ x := 80, y := 50, tier := 0 }, { x := 83, y := 90, tier := 0 }] =
      [{ x := 83, y := 90, tier := 0 }] ∧
    get_bottom_row_enemies
        [{ x := 80, y := 50, tier := 0 }, { x := 83, y := 90, tier := 0 }] =
      [{ x := 80, y := 50, tier := 0 }, { x := 83, y := 90, tier := 0 }] ∧
    ({ x := 80, y := 50, tier := 0 } : Enemy) ∉
      specFrontline
        [{ x := 80, y := 50, tier := 0 }, { x := 83, y := 90, tier := 0 }] := by
  decide

/-- Claim C3 amended: the tolerance-based first pass of
`get_bottom_row_enemies` yields no candidate on any formation (each enemy
counts itself as "below" itself), so the bucket fallback always runs: the
candidate set holds, for each distinct exact horizontal center, an enemy
of that column with maximal `y`, and every alive enemy's column is
represented; one candidate is then chosen uniformly at random. -/
theorem bottom_row_selection (es : List Enemy) :
    es.filter (fun e => (below_of es e).length == 0) = [] ∧
    (∀ b ∈ get_bottom_row_enemies es,
      b ∈ es ∧ ∀ o ∈ es, o.centerx = b.centerx → o.y ≤ b.y) ∧
    (∀ e ∈ es, ∃ b ∈ get_bottom_row_enemies es, b.centerx = e.centerx) := by
  have hfp := firstPass_empty es
  have hres : get_bottom_row_enemies es =
      (firstKeys (es.map Enemy.centerx)).filterMap (fun k => pymax_y (columnOf es k)) := by
    unfold get_bottom_row_enemies
    rw [hfp]
    rfl
  refine ⟨hfp, ?_, ?_⟩
  · intro b hb
    rw [hres] at hb
    rcases List.mem_filterMap.1 hb with ⟨k, _, hpm⟩
    rcases pymax_y_spec _ b hpm with ⟨hbcol, hmax⟩
    rcases (mem_columnOf es k b).1 hbcol with ⟨hbes, hbk⟩
    refine ⟨hbes, fun o ho hoc => ?_⟩
    exact hmax o ((mem_columnOf es k o).2 ⟨ho, hoc.trans hbk⟩)
  · intro e he
    have hkmem : e.centerx ∈ firstKeys (es.map Enemy.centerx) :=
      (mem_firstKeys _ _).2 (List.mem_map_of_mem Enemy.centerx he)
    have hecol : e ∈ columnOf es e.centerx := (mem_columnOf es e.centerx e).2 ⟨he, rfl⟩
    obtain ⟨b, hb⟩ : ∃ b, pymax_y (columnOf es e.centerx) = some b := by
      cases hcol : columnOf es e.centerx with
      | nil => rw [hcol] at hecol; cases hecol
      | cons x xs => exact ⟨_, rfl⟩
    rcases pymax_y_spec _ b hb with ⟨hbcol, _⟩
    refine ⟨b, ?_, ((mem_columnOf es e.centerx b).1 hbcol).2⟩
    rw [hres]
    exact List.mem_filterMap.2 ⟨e.centerx, hkmem, hb⟩

/-- Folding `+ f h` over a list starting from `s` is `s` plus the sum of
the mapped list (the score loop of `Game.collisions`). -/
theorem foldl_add_map_sum (f : Enemy × List Bullet → Int) :
    ∀ (l : List (Enemy × List Bullet)) (s : Int),
      l.foldl (fun a h => a + f h) s = s + (l.map f).sum := by
  intro l
  induction l with
  | nil => intro s; simp
  | cons h t ih =>
    intro s
    simp only [List.foldl_cons, List.map_cons, List.sum_cons]
    rw [ih]
    ring

/-- Structural facts about `groupcollide`: the recorded destroyed enemies
together with the surviving ones are a permutation of the input enemies;
the consumed bullets (each recorded under exactly one enemy) together
with the surviving bullets are a permutation of the input bullets; and
every recorded hit pairs an enemy with a non-empty list of bullets that
all genuinely overlap it. -/
theorem groupcollide_perm (es : List Enemy) :
    ∀ bs : List Bullet,
      ((groupcollide es bs).1.map Prod.fst ++ (groupcollide es bs).2.1).Perm es ∧
      (((groupcollide es bs).1.map Prod.snd).flatten ++ (groupcollide es bs).2.2).Perm bs ∧
      (∀ h ∈ (groupcollide es bs).1, h.2 ≠ [] ∧ ∀ b ∈ h.2, enemyHitBy h.1 b = true) := by
  induction es with
  | nil => intro bs; simp [groupcollide]
  | cons e es ih =>
    intro bs
    by_cases hemp : (bs.filter (fun b => enemyHitBy e b)).isEmpty
    · have hgc : groupcollide (e :: es) bs =
          ((groupcollide es bs).1, e :: (groupcollide es bs).2.1, (groupcollide es bs).2.2) := by
        simp only [groupcollide]
        rw [if_pos hemp]
      rcases ih bs with ⟨hperm1, hperm2, hhits⟩
      rw [hgc]
      refine ⟨?_, hperm2, hhits⟩
      exact List.perm_middle.trans (List.Perm.cons e hperm1)
    · have hgc : groupcollide (e :: es) bs =
          ((e, bs.filter (fun b => enemyHitBy e b)) ::
              (groupcollide es (bs.filter (fun b => !enemyHitBy e b))).1,
            (groupcollide es (bs.filter (fun b => !enemyHitBy e b))).2.1,
            (groupcollide es (bs.filter (fun b => !enemyHitBy e b))).2.2) := by
        simp only [groupcollide]
        rw [if_neg hemp]
      rcases ih (bs.filter (fun b => !enemyHitBy e b)) with ⟨hperm1, hperm2, hhits⟩
      rw [hgc]
      refine ⟨List.Perm.cons e hperm1, ?_, ?_⟩
      · simp only [List.map_cons, List.flatten_cons, List.append_assoc]
        refine List.Perm.trans ?_ (List.filter_append_perm (fun b => enemyHitBy e b) bs)
        exact List.Perm.append_left _ hperm2
      · intro h hh
        rcases List.mem_cons.1 hh with rfl | hin
        · refine ⟨by simpa [List.isEmpty_iff] using hemp, fun b hb => ?_⟩
          exact (List.mem_filter.1 hb).2
        · exact hhits h hin

/-- Claim C4: in a collision pass, each enemy of tier `t` destroyed by a
player projectile adds exactly `50 + 25 t`; the score change is the sum of
those increments (each destroyed enemy counted once); the destroyed and
surviving enemies repartition the original enemies, and the consumed
bullet lists (one per destroyed enemy, pairwise disjoint as multiset
occurrences) and surviving bullets repartition the original bullets, so a
projectile destroys at most one enemy and a destroyed enemy is never
matched again; every recorded hit is a genuine overlap. -/
theorem score_accounting (g : GameState) :
    (Game.collisions g).score =
      g.score + ((groupcollide g.enemies g.player_bullets).1.map
        (fun h => 50 + (h.1.tier : Int) * 25)).sum ∧
    ((groupcollide g.enemies g.player_bullets).1.map Prod.fst ++
      (groupcollide g.enemies g.player_bullets).2.1).Perm g.enemies ∧
    (((groupcollide g.enemies g.player_bullets).1.map Prod.snd).flatten ++
      (groupcollide g.enemies g.player_bullets).2.2).Perm g.player_bullets ∧
    (∀ h ∈ (groupcollide g.enemies g.player_bullets).1,
      h.2 ≠ [] ∧ ∀ b ∈ h.2, enemyHitBy h.1 b = true) := by
  rcases groupcollide_perm g.enemies g.player_bullets with ⟨h1, h2, h3⟩
  refine ⟨?_, h1, h2, h3⟩
  simp only [Game.collisions]
  exact foldl_add_map_sum _ _ _

/-- `Game.enemy_shoot` never touches the wave counter or the global speed. -/
theorem enemy_shoot_preserves (rng : Nat) (g : GameState) :
    (Game.enemy_shoot rng g).wave = g.wave ∧
    (Game.enemy_shoot rng g).enemy_speed_x5 = g.enemy_speed_x5 := by
  unfold Game.enemy_shoot
  split
  · exact ⟨rfl, rfl⟩
  · constructor <;>
      (by_cases ht : g.enemy_shoot_timer - 1 ≤ 0 <;> simp [ht])

/-- The pre-spawn phases of a tick (sprite moves, fleet, enemy fire,
collisions) never touch the wave counter or the global speed. -/
theorem pre_spawn_preserves (rng : Nat) (g : GameState) :
    (Game.pre_spawn rng g).wave = g.wave ∧
    (Game.pre_spawn rng g).enemy_speed_x5 = g.enemy_speed_x5 := by
  unfold Game.pre_spawn
  constructor
  · calc (Game.collisions (Game.enemy_shoot rng (Game.fleet_update (Game.sprites_update g)))).wave
        = (Game.enemy_shoot rng (Game.fleet_update (Game.sprites_update g))).wave := rfl
      _ = (Game.fleet_update (Game.sprites_update g)).wave :=
          (enemy_shoot_preserves rng _).1
      _ = g.wave := rfl
  · calc (Game.collisions (Game.enemy_shoot rng (Game.fleet_update (Game.sprites_update g)))).enemy_speed_x5
        = (Game.enemy_shoot rng (Game.fleet_update (Game.sprites_update g))).enemy_speed_x5 := rfl
      _ = (Game.fleet_update (Game.sprites_update g)).enemy_speed_x5 :=
          (enemy_shoot_preserves rng _).2
      _ = g.enemy_speed_x5 := rfl

/-- Every enemy of the freshly spawned grid sits in a row `r < 5` at
`y = 70 + 40 r` and a column `c < 10` at `x = 148 + 56 c`, with tier
`4 - r` (row 0 on top has the highest tier number `rows - 1 - 0`). -/
theorem waveGrid_mem (e : Enemy) (he : e ∈ Game.waveGrid) :
    ∃ r : Nat, r < 5 ∧ ∃ c : Nat, c < 10 ∧
      e.x = 148 + (c : Int) * 56 ∧ e.y = 70 + (r : Int) * 40 ∧ e.tier = 4 - r := by
  rcases List.mem_flatMap.1 he with ⟨r, hr, hmem⟩
  rcases List.mem_map.1 hmem with ⟨c, hc, rfl⟩
  exact ⟨r, List.mem_range.1 hr, c, List.mem_range.1 hc, rfl, rfl, rfl⟩

/-- Claim C5: on a tick that is not yet game over, in which the enemy
count goes from positive to zero during the phases, a fresh wave is
spawned: the tick ends with exactly 50 enemies (10 columns x 5 rows),
the wave counter one higher, each enemy of row `r` carrying tier
`rows - 1 - r`, and the recomputed horizontal speed
`base + increment * (wave - 1)` strictly above the speed of the
previous wave. -/
theorem wave_transition (rng : Nat) (g : GameState)
    (hgo : g.game_over = false) (_hne : g.enemies ≠ [])
    (h0 : (Game.pre_spawn rng g).enemies = [])
    (hsp : g.enemy_speed_x5 = 6 + ((g.wave : Int) - 1)) :
    (Game.update rng g).enemies.length = 50 ∧
    (Game.update rng g).wave = g.wave + 1 ∧
    (∀ e ∈ (Game.update rng g).enemies, ∃ r : Nat, r < 5 ∧ ∃ c : Nat, c < 10 ∧
      e.x = 148 + (c : Int) * 56 ∧ e.y = 70 + (r : Int) * 40 ∧ e.tier = 4 - r) ∧
    (Game.update rng g).enemy_speed_x5 = 6 + (g.wave : Int) ∧
    g.enemy_speed_x5 < (Game.update rng g).enemy_speed_x5 := by
  have hup : Game.update rng g = Game.spawn_wave (Game.pre_spawn rng g) := by
    unfold Game.update
    rw [if_neg (by rw [hgo]; exact Bool.false_ne_true)]
    rw [if_pos (by rw [h0]; rfl)]
  rcases pre_spawn_preserves rng g with ⟨hw, _⟩
  have hen : (Game.spawn_wave (Game.pre_spawn rng g)).enemies = Game.waveGrid := by
    show (Game.pre_spawn rng g).enemies ++ Game.waveGrid = Game.waveGrid
    rw [h0]
    rfl
  have hwv : (Game.spawn_wave (Game.pre_spawn rng g)).wave = g.wave + 1 := by
    show (Game.pre_spawn rng g).wave + 1 = g.wave + 1
    rw [hw]
  have hspd : (Game.spawn_wave (Game.pre_spawn rng g)).enemy_speed_x5 =
      6 + (g.wave : Int) := by
    show 6 + ((((Game.pre_spawn rng g).wave + 1 : Nat) : Int) - 1) = 6 + (g.wave : Int)
    rw [hw]
    push_cast
    ring
  rw [hup]
  refine ⟨by rw [hen]; decide, hwv, ?_, hspd, ?_⟩
  · intro e he
    rw [hen] at he
    exact waveGrid_mem e he
  · rw [hspd, hsp]
    omega

/-- The concrete state used to witness C5: a single tier-2 enemy about to
be destroyed by the single player bullet, no enemy fire this tick. -/
def lastKillState : GameState :=
  { player := mkPlayer 400 570,
    player_bullets := [{ x := 110, y := 119, vy := -9, from_player := true }],
    enemy_bullets := [],
    enemies := [{ x := 100, y := 100, tier := 2 }],
    score := 0, wave := 1, game_over := false, enemy_speed_x5 := 6,
    fleet := { dx5 := 6, move_down := false }, enemy_shoot_timer := 5 }

/-- Witness for C5 at `lastKillState`. -/
theorem wave_transition_witness :
    lastKillState.game_over = false ∧
    lastKillState.enemies ≠ [] ∧
    (Game.pre_spawn 0 lastKillState).enemies = [] ∧
    lastKillState.enemy_speed_x5 = 6 + ((lastKillState.wave : Int) - 1) ∧
    ((Game.update 0 lastKillState).enemies.length = 50 ∧
      (Game.update 0 lastKillState).wave = lastKillState.wave + 1 ∧
      (∀ e ∈ (Game.update 0 lastKillState).enemies, ∃ r : Nat, r < 5 ∧
        ∃ c : Nat, c < 10 ∧
        e.x = 148 + (c : Int) * 56 ∧ e.y = 70 + (r : Int) * 40 ∧ e.tier = 4 - r) ∧
      (Game.update 0 lastKillState).enemy_speed_x5 = 6 + (lastKillState.wave : Int) ∧
      lastKillState.enemy_speed_x5 < (Game.update 0 lastKillState).enemy_speed_x5) :=
  ⟨rfl, by decide, by decide, by decide,
    wave_transition 0 lastKillState rfl (by decide) (by decide) (by decide)⟩

/-- Claim C7 counterexample: on an update with no alive enemies the claim
says the horizontal direction is not flipped, but the defaults
(`min` default 0, `max` default `WIDTH`) make the left-margin test
`0 <= 10` succeed, so the speed is negated. -/
theorem fleet_empty_flips :
    (Fleet.update { dx5 := 6, move_down := false } []).1.dx5 = -6 ∧
    ((-6 : Int) ≠ 6) := by decide

/-- Claim C7 amended: on an update with no alive enemies nothing moves and
no drop is applied (there is nothing to move), and the pending-drop flag
ends cleared, but the horizontal direction IS negated, because the empty
bounds default to `0` and `WIDTH` and `0 <= 10` counts as an edge touch. -/
theorem fleet_empty_noop_except_flip (f : Fleet) :
    Fleet.update f [] = ({ dx5 := -f.dx5, move_down := false }, []) := by
  simp [Fleet.update, minLeft, maxRight]

/-- Claim C6: in every collision pass, (a) if an enemy projectile hits the
player and the decremented life count is at or below zero, the pass ends
with `game_over = true`; and (b) if any enemy that survives the
player-bullet collisions (the breach check runs after them) has its
bottom edge at or past the top edge of the player, the pass ends with
`game_over = true`, regardless of remaining lives. -/
theorem loss_conditions (g : GameState) :
    (g.enemy_bullets.filter (fun b => playerHitBy g.player b) ≠ [] →
      g.player.lives - 1 ≤ 0 → (Game.collisions g).game_over = true) ∧
    (∀ e ∈ (groupcollide g.enemies g.player_bullets).2.1,
      e.bottom ≥ g.player.top → (Game.collisions g).game_over = true) := by
  constructor
  · intro hhit hlives
    have hne : (g.enemy_bullets.filter (fun b => playerHitBy g.player b)).isEmpty = false := by
      rw [List.isEmpty_eq_false]
      exact hhit
    unfold Game.collisions
    simp only [hne]
    simp [hlives]
  · intro e he hbe
    have hany : (groupcollide g.enemies g.player_bullets).2.1.any
        (fun e2 => decide (e2.bottom ≥ g.player.top)) = true :=
      List.any_eq_true.2 ⟨e, he, by simpa using hbe⟩
    unfold Game.collisions
    simp [hany]

/-- Concrete state for the C6 witness, part (a): one life left, one enemy
bullet overlapping the player, no enemies. -/
def lastLifeState : GameState :=
  { player := { x := 375, y := 530, cooldown := 0, lives := 1 },
    player_bullets := [],
    enemy_bullets := [{ x := 380, y := 535, vy := 9, from_player := false }],
    enemies := [], score := 0, wave := 1, game_over := false,
    enemy_speed_x5 := 6, fleet := { dx5 := 6, move_down := false },
    enemy_shoot_timer := 5 }

/-- Concrete state for the C6 witness, part (b): full lives, no bullets,
one enemy whose bottom (550) is past the top of the player (530). -/
def breachState : GameState :=
  { player := { x := 375, y := 530, cooldown := 0, lives := 3 },
    player_bullets := [], enemy_bullets := [],
    enemies := [{ x := 100, y := 520, tier := 0 }],
    score := 0, wave := 1, game_over := false,
    enemy_speed_x5 := 6, fleet := { dx5 := 6, move_down := false },
    enemy_shoot_timer := 5 }

/-- Witness for C6: both loss conditions fire on their concrete states. -/
theorem loss_conditions_witness :
    (lastLifeState.enemy_bullets.filter
        (fun b => playerHitBy lastLifeState.player b) ≠ []) ∧
    lastLifeState.player.lives - 1 ≤ 0 ∧
    (Game.collisions lastLifeState).game_over = true ∧
    ({ x := 100, y := 520, tier := 0 } : Enemy) ∈
      (groupcollide breachState.enemies breachState.player_bullets).2.1 ∧
    ({ x := 100, y := 520, tier := 0 } : Enemy).bottom ≥ breachState.player.top ∧
    (Game.collisions breachState).game_over = true :=
  ⟨by decide, by decide,
    (loss_conditions lastLifeState).1 (by decide) (by decide),
    by decide, by decide,
    (loss_conditions breachState).2 { x := 100, y := 520, tier := 0 }
      (by decide) (by decide)⟩

/-- Claim C8: `reset` from any game-over state yields score 0, wave 1,
game over cleared, a freshly built player with the configured starting
lives, the fresh wave-1 grid of 50 enemies, and the wave-1 horizontal
speed (1.2, strictly the base, in a fresh fleet). -/
theorem restart_reset (g : GameState) (_hgo : g.game_over = true) :
    (Game.reset g).score = 0 ∧
    (Game.reset g).wave = 1 ∧
    (Game.reset g).game_over = false ∧
    (Game.reset g).player = mkPlayer (WIDTH.tdiv 2) (HEIGHT - 30) ∧
    (Game.reset g).player.lives = LIVES ∧
    (Game.reset g).enemies = Game.waveGrid ∧
    (Game.reset g).enemies.length = 50 ∧
    (Game.reset g).enemy_speed_x5 = 6 ∧
    (Game.reset g).fleet = { dx5 := 6, move_down := false } := by
  unfold Game.reset Game.spawn_wave
  refine ⟨rfl, rfl, rfl, rfl, rfl, rfl, ?_, ?_, ?_⟩
  · show (([] : List Enemy) ++ Game.waveGrid).length = 50
    decide
  · show (6 + (((0 + 1 : Nat) : Int) - 1)) = 6
    norm_num
  · show Fleet.mk (6 + (((0 + 1 : Nat) : Int) - 1)) false = Fleet.mk 6 false
    norm_num

/-- Witness for C8 from a game-over state with a dirty history. -/
theorem restart_reset_witness :
    ({ Game.initGame with game_over := true, score := 9999, wave := 7 }
        : GameState).game_over = true ∧
    ((Game.reset { Game.initGame with game_over := true, score := 9999, wave := 7 }).score = 0 ∧
      (Game.reset { Game.initGame with game_over := true, score := 9999, wave := 7 }).wave = 1 ∧
      (Game.reset { Game.initGame with game_over := true, score := 9999, wave := 7 }).game_over = false ∧
      (Game.reset { Game.initGame with game_over := true, score := 9999, wave := 7 }).player =
        mkPlayer (WIDTH.tdiv 2) (HEIGHT - 30) ∧
      (Game.reset { Game.initGame with game_over := true, score := 9999, wave := 7 }).player.lives = LIVES ∧
      (Game.reset { Game.initGame with game_over := true, score := 9999, wave := 7 }).enemies =
        Game.waveGrid ∧
      (Game.reset { Game.initGame with game_over := true, score := 9999, wave := 7 }).enemies.length = 50 ∧
      (Game.reset { Game.initGame with game_over := true, score := 9999, wave := 7 }).enemy_speed_x5 = 6 ∧
      (Game.reset { Game.initGame with game_over := true, score := 9999, wave := 7 }).fleet =
        { dx5 := 6, move_down := false }) :=
  ⟨rfl, restart_reset { Game.initGame with game_over := true, score := 9999, wave := 7 } rfl⟩

/-- Claim C9: while `game_over` holds, a tick whose events contain no
restart key (RETURN or r) leaves the whole game state unchanged: the
runtime player class has no own `update` (no movement), SPACE is ignored
while game over, and `Game.update` returns immediately. -/
theorem game_over_freeze (keys : KeysState) (ks : List Key) (rng : Nat)
    (g : GameState) (hgo : g.game_over = true)
    (hres : ∀ k ∈ ks, k ≠ Key.enter ∧ k ≠ Key.rkey) :
    Game.tick keys ks rng g = .ok g := by
  have hk : ∀ ks2 : List Key, (∀ k ∈ ks2, k ≠ Key.enter ∧ k ≠ Key.rkey) →
      Game.handle_keydowns ks2 g = .ok g := by
    intro ks2
    induction ks2 with
    | nil => intro _; rfl
    | cons k rest ih =>
      intro hres2
      unfold Game.handle_keydowns
      rw [if_neg (by rw [hgo]; rintro ⟨_, hcontra⟩; cases hcontra)]
      rw [if_neg (by
        rintro ⟨_, hk2⟩
        rcases hres2 k (List.mem_cons_self k rest) with ⟨hkE, hkR⟩
        rcases hk2 with h | h
        · exact hkE h
        · exact hkR h)]
      exact ih (fun k2 hk2 => hres2 k2 (List.mem_cons_of_mem k hk2))
  unfold Game.tick Game.handle_events
  have hplayer : ({ g with player := Player.update g.player keys } : GameState) = g := rfl
  rw [hplayer, hk ks hres]
  show Except.ok (Game.update rng g) = Except.ok g
  rw [Game.update, if_pos hgo]

/-- The game-over state used to witness C9. -/
def frozenState : GameState := { Game.initGame with game_over := true }

/-- Witness for C9: SPACE and an unrelated key during game over leave the
state untouched. -/
theorem game_over_freeze_witness :
    frozenState.game_over = true ∧
    (∀ k ∈ [Key.space, Key.other], k ≠ Key.enter ∧ k ≠ Key.rkey) ∧
    Game.tick { left := true, right := false } [Key.space, Key.other] 0 frozenState =
      .ok frozenState :=
  ⟨rfl, by decide,
    game_over_freeze { left := true, right := false } [Key.space, Key.other] 0
      frozenState rfl (by decide)⟩

/-- Claim C10: in a collision pass in which at least one enemy projectile
overlaps the player, every overlapping enemy projectile is removed, yet
the player loses exactly one life, no matter how many projectiles hit. -/
theorem one_life_per_pass (g : GameState)
    (h : g.enemy_bullets.filter (fun b => playerHitBy g.player b) ≠ []) :
    (Game.collisions g).player.lives = g.player.lives - 1 ∧
    (Game.collisions g).enemy_bullets =
      g.enemy_bullets.filter (fun b => !playerHitBy g.player b) := by
  have hne : (g.enemy_bullets.filter (fun b => playerHitBy g.player b)).isEmpty = false := by
    rw [List.isEmpty_eq_false]
    exact h
  unfold Game.collisions
  simp [hne]

/-- Concrete state for the C10 witness: two enemy bullets overlapping the
player at once. -/
def doubleHitState : GameState :=
  { player := { x := 375, y := 530, cooldown := 0, lives := 3 },
    player_bullets := [],
    enemy_bullets := [{ x := 380, y := 535, vy := 9, from_player := false },
                      { x := 400, y := 540, vy := 9, from_player := false }],
    enemies := [], score := 0, wave := 1, game_over := false,
    enemy_speed_x5 := 6, fleet := { dx5 := 6, move_down := false },
    enemy_shoot_timer := 5 }

/-- Witness for C10: two simultaneous hits cost exactly one life and both
bullets are destroyed. -/
theorem one_life_per_pass_witness :
    (doubleHitState.enemy_bullets.filter
        (fun b => playerHitBy doubleHitState.player b) ≠ []) ∧
    ((Game.collisions doubleHitState).player.lives =
        doubleHitState.player.lives - 1 ∧
      (Game.collisions doubleHitState).enemy_bullets =
        doubleHitState.enemy_bullets.filter
          (fun b => !playerHitBy doubleHitState.player b)) :=
  ⟨by decide, one_life_per_pass doubleHitState (by decide)⟩

end SpaceInvaders